import Mathlib

/-!
Verification of the go-ipfix intermediate flow-aggregation engine.

The repository provides the package types (`FlowKey`, `AggregationFlowRecord`,
`AggregationElements`) and an extensive test suite for the aggregation process.
The aggregation engine itself (`InitAggregationProcess`, `AggregateMsgByFlowKey`,
`addOrUpdateRecordInMap`, `correlateRecords`, statistics aggregation,
`deleteFlowKeyFromMap`, `ForAllExpiredFlowRecordsDo`, `addOriginalExporterInfo`)
is not part of the sources; those operations are modelled here from the
specification, and the concrete records of the test suite are translated
faithfully so the modelled operations can be evaluated on the tests' inputs.

Time is modelled as a natural number of ticks; machine integers are modelled as
`Nat` (all values involved are far below any overflow boundary and the engine
performs no wrapping arithmetic on them); IP addresses are modelled in their
canonical textual form, which is exactly what the Go `FlowKey` stores.
-/

namespace GoIpfix

/-- Value carried by an information element: one of the IPFIX data types used by
the intermediate package (string, unsigned 8/16/32/64, signed 32, IP address in
canonical textual form), or `vNone` for an absent/nil value (template records
carry nil values; the test suite also sets a value to nil to trigger the
malformed-record error). -/
inductive IEValue where
  | vStr (s : String)
  | vU8 (n : Nat)
  | vU16 (n : Nat)
  | vU32 (n : Nat)
  | vU64 (n : Nat)
  | vI32 (n : Int)
  | vIP (addr : String)
  | vNone
  deriving DecidableEq, Repr

/-- A record is an ordered collection of (element name, value) pairs with
lookup by name, mirroring `entities.Record` as used by the tests. -/
abbrev Rec : Type := List (String × IEValue)

/-- Lookup of an information element by name (`GetInfoElementWithValue`):
first match wins. -/
def lookupIE (r : Rec) (name : String) : Option IEValue :=
  (List.find? (fun p => p.1 = name) r).map Prod.snd

/-- Overwrite the value of the named element in place (every occurrence of the
name; records built by the engine carry each name once). -/
def setIE (r : Rec) (name : String) (v : IEValue) : Rec :=
  List.map (fun p => if p.1 = name then (p.1, v) else p) r

/-- Modelled from the spec: the "empty/zero" test used by the correlation merge
rule ("overwritten only if the existing value is empty/zero"): empty string,
zero integer, unspecified IP address, or nil value. -/
def isEmptyValue : IEValue → Bool
  | .vStr s => s = ""
  | .vU8 n => n = 0
  | .vU16 n => n = 0
  | .vU32 n => n = 0
  | .vU64 n => n = 0
  | .vI32 n => n = 0
  | .vIP a => a = "0.0.0.0" || a = "::"
  | .vNone => true

/-- registry.FlowTypeIntraNode -/
def flowTypeIntraNode : Nat := 1
/-- registry.FlowTypeInterNode -/
def flowTypeInterNode : Nat := 2
/-- registry.FlowTypeToExternal -/
def flowTypeToExternal : Nat := 3
/-- registry.NetworkPolicyRuleActionNoAction -/
def ruleActionNoAction : Nat := 0
/-- registry.NetworkPolicyRuleActionDrop -/
def ruleActionDrop : Nat := 2
/-- registry.NetworkPolicyRuleActionReject -/
def ruleActionReject : Nat := 3
/-- registry.ActiveTimeoutReason -/
def activeTimeoutReason : Nat := 2
/-- registry.EndOfFlowReason -/
def endOfFlowReason : Nat := 3

/-- The flow key: canonical textual addresses plus protocol and ports
(pkg/intermediate/types.go). -/
structure FlowKey where
  sourceAddress : String
  destinationAddress : String
  protocol : Nat
  sourcePort : Nat
  destinationPort : Nat
  deriving DecidableEq, Repr

/-- The aggregated flow record stored in the map
(pkg/intermediate/types.go; the back-reference to the heap entry is modelled
by keeping the map and the queue consistent by key). -/
structure AggregationFlowRecord where
  record : Rec
  readyToSend : Bool
  waitForReadyToSendRetries : Nat
  deriving DecidableEq, Repr

/-- A heap entry of the expiry priority queue (`ItemToExpire`): the flow key,
the aggregated record it points to, and the two expiry deadlines. -/
structure ItemToExpire where
  flowKey : FlowKey
  flowRecord : AggregationFlowRecord
  activeExpireTime : Nat
  inactiveExpireTime : Nat
  deriving DecidableEq, Repr

/-- The four aligned element-name lists driving statistics aggregation
(pkg/intermediate/types.go). -/
structure AggregationElements where
  nonStatsElements : List String
  statsElements : List String
  aggregatedSourceStatsElements : List String
  aggregatedDestinationStatsElements : List String
  deriving DecidableEq, Repr

/-- Construction input of the aggregation process; the message channel is
modelled by its presence (`messageChanPresent = false` models a nil channel). -/
structure AggregationInput where
  messageChanPresent : Bool
  workerNum : Nat
  correlateFields : List String
  aggregateElements : Option AggregationElements
  activeExpiryTimeout : Nat
  inactiveExpiryTimeout : Nat

/-- The aggregation process: configuration plus the flow-key record map and the
expiry priority queue (the two shared structures mutated together). -/
structure AggregationProcess where
  workerNum : Nat
  correlateFields : List String
  aggregateElements : Option AggregationElements
  activeExpiryTimeout : Nat
  inactiveExpiryTimeout : Nat
  flowKeyRecordMap : List (FlowKey × AggregationFlowRecord)
  expirePriorityQueue : List ItemToExpire

/-- Set type of the single set carried by a message. -/
inductive SetType where
  | template
  | data
  deriving DecidableEq, Repr

/-- Export address of a message, already parsed (the claims only concern
addresses that parse as IPv4 or IPv6). -/
inductive ExportAddress where
  | v4 (addr : String)
  | v6 (addr : String)
  deriving DecidableEq, Repr

/-- A decoded IPFIX message: one set, either template or data, with records;
plus the export address and observation domain id used for provenance. -/
structure Message where
  setType : SetType
  records : List Rec
  exportAddress : ExportAddress
  obsDomainID : Nat

/-- The character list `ps` is an initial segment of `cs`. -/
def leadingChars : List Char → List Char → Bool
  | [], _ => true
  | _ :: _, [] => false
  | p :: ps, c :: cs => p = c && leadingChars ps cs

/-- The character list `pat` occurs inside the second list. -/
def containsChars (pat : List Char) : List Char → Bool
  | [] => pat.isEmpty
  | c :: cs => leadingChars pat (c :: cs) || containsChars pat cs

/-- Substring containment test used to classify statistics element names
(modelled after `strings.Contains`). -/
def strContains (s pat : String) : Bool :=
  containsChars pat.data s.data

/-- Modelled from the spec: `InitAggregationProcess` (not under src/) — fails
with InvalidConfiguration when called without a message channel, otherwise
returns a process with the given configuration and empty map and queue. -/
def InitAggregationProcess (input : AggregationInput) : Except String AggregationProcess :=
  if input.messageChanPresent then
    .ok { workerNum := input.workerNum
          correlateFields := input.correlateFields
          aggregateElements := input.aggregateElements
          activeExpiryTimeout := input.activeExpiryTimeout
          inactiveExpiryTimeout := input.inactiveExpiryTimeout
          flowKeyRecordMap := []
          expirePriorityQueue := [] }
  else
    .error "InvalidConfiguration: cannot create AggregationProcess without message channel"

/-- Modelled from the spec: flow-key extraction (not under src/) — addresses
are read from the IPv4 elements when present, otherwise from the IPv6
elements; protocol and ports from their elements; fails with MalformedRecord
when a required element is missing or undecodable. -/
def getFlowKeyFromRecord (r : Rec) : Except String FlowKey := do
  let srcAddr ← match lookupIE r "sourceIPv4Address" with
    | some (.vIP a) => Except.ok a
    | some _ => Except.error "MalformedRecord: source address undecodable"
    | none => match lookupIE r "sourceIPv6Address" with
      | some (.vIP a) => Except.ok a
      | _ => Except.error "MalformedRecord: source address missing"
  let dstAddr ← match lookupIE r "destinationIPv4Address" with
    | some (.vIP a) => Except.ok a
    | some _ => Except.error "MalformedRecord: destination address undecodable"
    | none => match lookupIE r "destinationIPv6Address" with
      | some (.vIP a) => Except.ok a
      | _ => Except.error "MalformedRecord: destination address missing"
  let proto ← match lookupIE r "protocolIdentifier" with
    | some (.vU8 p) => Except.ok p
    | _ => Except.error "MalformedRecord: protocol missing"
  let srcPort ← match lookupIE r "sourceTransportPort" with
    | some (.vU16 p) => Except.ok p
    | _ => Except.error "MalformedRecord: source port missing"
  let dstPort ← match lookupIE r "destinationTransportPort" with
    | some (.vU16 p) => Except.ok p
    | _ => Except.error "MalformedRecord: destination port missing"
  .ok { sourceAddress := srcAddr, destinationAddress := dstAddr,
        protocol := proto, sourcePort := srcPort, destinationPort := dstPort }

/-- Modelled from the spec: fill one correlation field — the existing record's
value is overwritten only if the existing value is empty/zero (the first
exporter to provide a non-empty value wins); fields absent from the incoming
record are skipped. -/
def correlateField (existing incoming : Rec) (field : String) : Rec :=
  match lookupIE incoming field with
  | none => existing
  | some vIn =>
    match lookupIE existing field with
    | none => existing ++ [(field, vIn)]
    | some vEx => if isEmptyValue vEx then setIE existing field vIn else existing

/-- Modelled from the spec: the correlation merge (not under src/) — every
configured correlation field of the incoming half-record is filled into the
existing record when the existing value is empty/zero. -/
def correlateRecords (correlateFields : List String) (existing incoming : Rec) : Rec :=
  correlateFields.foldl (fun acc f => correlateField acc incoming f) existing

/-- Modelled from the spec: merge of one statistics element — element names
containing "TotalCount" take the maximum of existing and latest values,
element names containing "DeltaCount" take their sum. -/
def mergeStatValue (name : String) (vEx vIn : IEValue) : IEValue :=
  if strContains name "TotalCount" then
    match vEx, vIn with
    | .vU64 a, .vU64 b => .vU64 (Nat.max a b)
    | _, _ => vIn
  else if strContains name "DeltaCount" then
    match vEx, vIn with
    | .vU64 a, .vU64 b => .vU64 (a + b)
    | _, _ => vIn
  else vIn

/-- Modelled from the spec: a half-record is source-side when its
sourcePodName is non-empty (the side-detection heuristic). -/
def isRecordFromSrc (r : Rec) : Bool :=
  match lookupIE r "sourcePodName" with
  | some (.vStr s) => s ≠ ""
  | _ => false

/-- Modelled from the spec: a half-record is destination-side when its
destinationPodName is non-empty. -/
def isRecordFromDst (r : Rec) : Bool :=
  match lookupIE r "destinationPodName" with
  | some (.vStr s) => s ≠ ""
  | _ => false

/-- Modelled from the spec: write into each per-side mirror element the value
of the positionally aligned statistics element of the given record. -/
def updateMirrors (stats mirrors : List String) (incoming acc : Rec) : Rec :=
  (stats.zip mirrors).foldl (fun acc p =>
    match lookupIE incoming p.1 with
    | some vIn => setIE acc p.2 vIn
    | none => acc) acc

/-- Modelled from the spec: statistics aggregation on merge (not under src/) —
non-statistical elements always take the latest record's value; statistics
elements merge by the TotalCount/DeltaCount rule; the per-side mirror elements
take the value carried by the latest record of their side. -/
def aggregateStats (ae : AggregationElements) (existing incoming : Rec) : Rec :=
  let r1 := ae.nonStatsElements.foldl (fun acc name =>
    match lookupIE incoming name with
    | some vIn => setIE acc name vIn
    | none => acc) existing
  let r2 := ae.statsElements.foldl (fun acc name =>
    match lookupIE acc name, lookupIE incoming name with
    | some vEx, some vIn => setIE acc name (mergeStatValue name vEx vIn)
    | _, _ => acc) r1
  let r3 := if isRecordFromSrc incoming then
      updateMirrors ae.statsElements ae.aggregatedSourceStatsElements incoming r2
    else r2
  if isRecordFromDst incoming then
    updateMirrors ae.statsElements ae.aggregatedDestinationStatsElements incoming r3
  else r3

/-- Modelled from the spec: on first insertion with aggregation elements
configured, the per-side mirror elements are appended (initialised to zero)
and the mirrors of the inserted record's own side take its statistics
values. -/
def addFieldsForStatsAggregation (ae : AggregationElements) (r : Rec) : Rec :=
  let withMirrors := r ++
    (ae.aggregatedSourceStatsElements ++ ae.aggregatedDestinationStatsElements).map
      (fun n => (n, IEValue.vU64 0))
  let r1 := if isRecordFromSrc r then
      updateMirrors ae.statsElements ae.aggregatedSourceStatsElements r withMirrors
    else withMirrors
  if isRecordFromDst r then
    updateMirrors ae.statsElements ae.aggregatedDestinationStatsElements r r1
  else r1

/-- Modelled from the spec: an InterNode deny half-record carries a
non-NoAction value in egressNetworkPolicyRuleAction (source-side drop) or
ingressNetworkPolicyRuleAction (ingress reject/drop). -/
def isDenyRecord (r : Rec) : Bool :=
  (match lookupIE r "egressNetworkPolicyRuleAction" with
   | some (.vU8 a) => a ≠ ruleActionNoAction
   | _ => false) ||
  (match lookupIE r "ingressNetworkPolicyRuleAction" with
   | some (.vU8 a) => a ≠ ruleActionNoAction
   | _ => false)

/-- Modelled from the spec: the completeness policy — IntraNode and ToExternal
records are ready immediately; an InterNode record is ready when both pod
names are non-empty, or immediately when it is a deny flow. -/
def isRecordReadyToSend (r : Rec) : Bool :=
  match lookupIE r "flowType" with
  | some (.vU8 ft) =>
    if ft = flowTypeInterNode then
      (isRecordFromSrc r && isRecordFromDst r) || isDenyRecord r
    else true
  | _ => true

/-- Modelled from the spec: aggregation fails with MalformedRecord when
flowEndSeconds is missing or its value is undecodable (nil). -/
def hasValidFlowEnd (r : Rec) : Bool :=
  match lookupIE r "flowEndSeconds" with
  | some .vNone => false
  | some _ => true
  | none => false

/-- Modelled from the spec: the merge applied on second and subsequent records
of a key — the incoming record is correlated into the existing aggregated
record (fill-if-empty), statistics are aggregated when configured, and
readiness is re-evaluated (monotonically). -/
def mergedRecordOf (ap : AggregationProcess) (existing : AggregationFlowRecord)
    (record : Rec) : AggregationFlowRecord :=
  let merged0 := correlateRecords ap.correlateFields existing.record record
  let merged := match ap.aggregateElements with
    | some ae => aggregateStats ae merged0 record
    | none => merged0
  { record := merged
    readyToSend := existing.readyToSend || isRecordReadyToSend merged
    waitForReadyToSendRetries := existing.waitForReadyToSendRetries }

/-- Modelled from the spec: the aggregated record created on first insertion —
the record itself (with per-side mirrors added when aggregation elements are
configured), ReadyToSend from the completeness policy, zero retries. -/
def insertedRecordOf (ap : AggregationProcess) (record : Rec) : AggregationFlowRecord :=
  let stored := match ap.aggregateElements with
    | some ae => addFieldsForStatsAggregation ae record
    | none => record
  { record := stored
    readyToSend := isRecordReadyToSend stored
    waitForReadyToSendRetries := 0 }

/-- Modelled from the spec: insert-or-merge of one keyed record (not under
src/). On a new key the record is inserted with ReadyToSend given by the
completeness policy, and a heap entry with activeExpiry = now +
ActiveExpiryTimeout and inactiveExpiry = now + InactiveExpiryTimeout is
pushed. On an existing key the incoming record is merged into the existing
one; the map entry and its heap entry are updated together, the active expiry
is left unchanged and the inactive expiry is refreshed to now +
InactiveExpiryTimeout. -/
def addOrUpdateRecordInMap (ap : AggregationProcess) (now : Nat) (key : FlowKey)
    (record : Rec) : Except String AggregationProcess :=
  if !hasValidFlowEnd record then
    .error "MalformedRecord: flowEndSeconds is absent or undecodable"
  else
    match List.find? (fun e => e.1 = key) ap.flowKeyRecordMap with
    | some e =>
      let newAgg := mergedRecordOf ap e.2 record
      .ok { ap with
        flowKeyRecordMap := ap.flowKeyRecordMap.map
          (fun e' => if e'.1 = key then (e'.1, newAgg) else e')
        expirePriorityQueue := ap.expirePriorityQueue.map (fun it =>
          if it.flowKey = key then
            { it with flowRecord := newAgg,
                      inactiveExpireTime := now + ap.inactiveExpiryTimeout }
          else it) }
    | none =>
      let newAgg := insertedRecordOf ap record
      .ok { ap with
        flowKeyRecordMap := ap.flowKeyRecordMap ++ [(key, newAgg)]
        expirePriorityQueue := ap.expirePriorityQueue ++
          [{ flowKey := key, flowRecord := newAgg,
             activeExpireTime := now + ap.activeExpiryTimeout,
             inactiveExpireTime := now + ap.inactiveExpiryTimeout }] }

/-- Modelled from the spec: annotate one record of a message with the original
exporter identity — the originalExporterIPv4Address or
originalExporterIPv6Address element (by address family of the export address)
and the originalObservationDomainId element are appended if absent; records of
a data set receive the message's export address and observation domain id as
values, records of a template set receive nil values. -/
def annotateRecord (msg : Message) (r : Rec) : Rec :=
  let addrName := match msg.exportAddress with
    | .v4 _ => "originalExporterIPv4Address"
    | .v6 _ => "originalExporterIPv6Address"
  let addrVal : IEValue := match msg.setType, msg.exportAddress with
    | .template, _ => .vNone
    | .data, .v4 a => .vIP a
    | .data, .v6 a => .vIP a
  let obsVal : IEValue := match msg.setType with
    | .template => .vNone
    | .data => .vU32 msg.obsDomainID
  let r1 := if (lookupIE r addrName).isSome then r else r ++ [(addrName, addrVal)]
  if (lookupIE r1 "originalObservationDomainId").isSome then r1
  else r1 ++ [("originalObservationDomainId", obsVal)]

/-- Modelled from the spec: `addOriginalExporterInfo` (not under src/) —
annotates every record of the message, template and data sets alike. -/
def addOriginalExporterInfo (msg : Message) : Message :=
  { msg with records := msg.records.map (annotateRecord msg) }

/-- Modelled from the spec: the public aggregation entry point (not under
src/) — the message's records are annotated with the original exporter
identity, a message carrying a template set is then silently dropped, and each
record of a data set is keyed and inserted or merged. -/
def AggregateMsgByFlowKey (ap : AggregationProcess) (now : Nat) (msg : Message) :
    Except String AggregationProcess :=
  let msg := addOriginalExporterInfo msg
  match msg.setType with
  | .template => .ok ap
  | .data =>
    msg.records.foldlM (fun s r => do
      let key ← getFlowKeyFromRecord r
      addOrUpdateRecordInMap s now key r) ap

/-- Remove the entry of the given key from both the map and the queue. -/
def removeEntry (ap : AggregationProcess) (key : FlowKey) : AggregationProcess :=
  { ap with
    flowKeyRecordMap := ap.flowKeyRecordMap.eraseP (fun e => e.1 = key)
    expirePriorityQueue := ap.expirePriorityQueue.eraseP (fun it => it.flowKey = key) }

/-- Modelled from the spec: `deleteFlowKeyFromMap` (not under src/) — removes
the key from the map and its entry from the heap; fails with NotFound when the
key is absent, leaving the process untouched. -/
def deleteFlowKeyFromMap (ap : AggregationProcess) (key : FlowKey) :
    Except String AggregationProcess :=
  match List.find? (fun e => e.1 = key) ap.flowKeyRecordMap with
  | none => .error "NotFound: flow key is not present in the map"
  | some _ => .ok (removeEntry ap key)

/-- Priority of a heap entry: the earlier of its two expiry deadlines. -/
def itemPriority (it : ItemToExpire) : Nat :=
  Nat.min it.activeExpireTime it.inactiveExpireTime

/-- Modelled from the spec: the root of the expiry min-heap — an entry of
minimal priority. -/
def peekQueue : List ItemToExpire → Option ItemToExpire
  | [] => none
  | it :: rest =>
    match peekQueue rest with
    | none => some it
    | some it' => if itemPriority it ≤ itemPriority it' then some it else some it'

/-- Modelled from the spec: the bounded scan of `ForAllExpiredFlowRecordsDo`
(not under src/) — while the heap root is due, a not-yet-ready record has its
retry counter incremented and either is dropped from map and heap without a
callback invocation once the counter reaches MaxRetries, or is pushed back
with both expiries refreshed and the scan stops; a ready record gets one
callback invocation and is removed from map and heap on success; a failing
callback stops the scan with an error. The returned list records the callback
invocations in order. -/
def sweepLoop (now maxRetries : Nat) (cb : FlowKey → AggregationFlowRecord → Bool) :
    Nat → AggregationProcess →
    Except String (AggregationProcess × List (FlowKey × AggregationFlowRecord))
  | 0, ap => .ok (ap, [])
  | fuel + 1, ap =>
    match peekQueue ap.expirePriorityQueue with
    | none => .ok (ap, [])
    | some it =>
      if now < it.activeExpireTime && now < it.inactiveExpireTime then
        .ok (ap, [])
      else if !it.flowRecord.readyToSend then
        let retries := it.flowRecord.waitForReadyToSendRetries + 1
        if maxRetries ≤ retries then
          sweepLoop now maxRetries cb fuel (removeEntry ap it.flowKey)
        else
          let newAgg := { it.flowRecord with waitForReadyToSendRetries := retries }
          .ok ({ ap with
            flowKeyRecordMap := ap.flowKeyRecordMap.map
              (fun e => if e.1 = it.flowKey then (e.1, newAgg) else e)
            expirePriorityQueue := ap.expirePriorityQueue.map (fun it' =>
              if it'.flowKey = it.flowKey then
                { flowKey := it'.flowKey, flowRecord := newAgg,
                  activeExpireTime := now + ap.activeExpiryTimeout,
                  inactiveExpireTime := now + ap.inactiveExpiryTimeout }
              else it') }, [])
      else if cb it.flowKey it.flowRecord then
        match sweepLoop now maxRetries cb fuel (removeEntry ap it.flowKey) with
        | .ok (s, calls) => .ok (s, (it.flowKey, it.flowRecord) :: calls)
        | .error e => .error e
      else .error "error in callback"

/-- Modelled from the spec: `ForAllExpiredFlowRecordsDo` (not under src/) —
runs the bounded scan with enough fuel to visit every queue entry once. -/
def ForAllExpiredFlowRecordsDo (ap : AggregationProcess) (now maxRetries : Nat)
    (cb : FlowKey → AggregationFlowRecord → Bool) :
    Except String (AggregationProcess × List (FlowKey × AggregationFlowRecord)) :=
  sweepLoop now maxRetries cb ap.expirePriorityQueue.length ap

/-- The correlation fields configured by the test suite. -/
def testFields : List String :=
  ["sourcePodName", "sourcePodNamespace", "sourceNodeName",
   "destinationPodName", "destinationPodNamespace", "destinationNodeName",
   "destinationClusterIPv4", "destinationClusterIPv6", "destinationServicePort",
   "ingressNetworkPolicyRuleAction", "egressNetworkPolicyRuleAction",
   "ingressNetworkPolicyRulePriority"]

/-- The non-statistical element list configured by the test suite. -/
def nonStatsElementList : List String :=
  ["flowEndSeconds", "flowEndReason", "tcpState"]

/-- The statistics element list configured by the test suite. -/
def statsElementList : List String :=
  ["packetTotalCount", "packetDeltaCount",
   "reversePacketTotalCount", "reversePacketDeltaCount"]

/-- The source-side mirror list configured by the test suite. -/
def antreaSourceStatsElementList : List String :=
  ["packetTotalCountFromSourceNode", "packetDeltaCountFromSourceNode",
   "reversePacketTotalCountFromSourceNode", "reversePacketDeltaCountFromSourceNode"]

/-- The destination-side mirror list configured by the test suite. -/
def antreaDestinationStatsElementList : List String :=
  ["packetTotalCountFromDestinationNode", "packetDeltaCountFromDestinationNode",
   "reversePacketTotalCountFromDestinationNode", "reversePacketDeltaCountFromDestinationNode"]

/-- The source-side test record built by `createDataMsgForSrc` (translated
from the test source, same flags and values; IP addresses in canonical textual
form). -/
def createRecordForSrc (isIPv6 isIntraNode isUpdatedRecord isToExternal isEgressDeny : Bool) : Rec :=
  [ (if isIPv6 then ("sourceIPv6Address", IEValue.vIP "2001:0:3238:dfe1:63::fefb")
     else ("sourceIPv4Address", IEValue.vIP "10.0.0.1")),
    (if isIPv6 then ("destinationIPv6Address", IEValue.vIP "2001:0:3238:dfe1:63::fefc")
     else ("destinationIPv4Address", IEValue.vIP "10.0.0.2")),
    ("sourceTransportPort", .vU16 1234),
    ("destinationTransportPort", .vU16 5678),
    ("protocolIdentifier", .vU8 6),
    ("sourcePodName", .vStr "pod1"),
    ("destinationPodName", .vStr (if isIntraNode then "pod2" else "")),
    (if isIPv6 then ("destinationClusterIPv6", IEValue.vIP "2001:0:3238:bbbb:63::aaaa")
     else ("destinationClusterIPv4", IEValue.vIP "192.168.0.1")),
    ("destinationServicePort", .vU16 4739),
    ("flowEndSeconds", .vU32 (if isUpdatedRecord then 10 else 1)),
    ("flowType", .vU8 (if isToExternal then flowTypeToExternal
                       else if isIntraNode then flowTypeIntraNode
                       else flowTypeInterNode)),
    ("flowEndReason", .vU8 (if isUpdatedRecord then endOfFlowReason else activeTimeoutReason)),
    ("tcpState", .vStr (if isUpdatedRecord then "TIME_WAIT" else "ESTABLISHED")),
    ("ingressNetworkPolicyRuleAction", .vU8 ruleActionNoAction),
    ("egressNetworkPolicyRuleAction",
      .vU8 (if isEgressDeny then ruleActionDrop else ruleActionNoAction)),
    ("ingressNetworkPolicyRulePriority",
      .vI32 (if isToExternal then 50000 else if isIntraNode then 50000 else 0)),
    ("packetTotalCount", .vU64 (if isUpdatedRecord then 1000 else 500)),
    ("packetDeltaCount", .vU64 (if isUpdatedRecord then 500 else 0)),
    ("reversePacketTotalCount", .vU64 (if isUpdatedRecord then 1000 else 500)),
    ("reversePacketDeltaCount", .vU64 (if isUpdatedRecord then 500 else 0)) ]

/-- The destination-side test record built by `createDataMsgForDst`
(translated from the test source, same flags and values). -/
def createRecordForDst (isIPv6 isIntraNode isUpdatedRecord isIngressReject isIngressDrop : Bool) : Rec :=
  [ (if isIPv6 then ("sourceIPv6Address", IEValue.vIP "2001:0:3238:dfe1:63::fefb")
     else ("sourceIPv4Address", IEValue.vIP "10.0.0.1")),
    (if isIPv6 then ("destinationIPv6Address", IEValue.vIP "2001:0:3238:dfe1:63::fefc")
     else ("destinationIPv4Address", IEValue.vIP "10.0.0.2")),
    ("sourceTransportPort", .vU16 1234),
    ("destinationTransportPort", .vU16 5678),
    ("protocolIdentifier", .vU8 6),
    ("sourcePodName", .vStr (if isIntraNode then "pod1" else "")),
    ("destinationPodName", .vStr "pod2"),
    (if isIPv6 then
      ("destinationClusterIPv6",
        if isIntraNode then IEValue.vIP "2001:0:3238:bbbb:63::aaaa" else IEValue.vIP "::")
     else ("destinationClusterIPv4", IEValue.vIP "0.0.0.0")),
    ("destinationServicePort", .vU16 (if isIntraNode then 4739 else 0)),
    ("flowEndSeconds", .vU32 (if isUpdatedRecord then 10 else 1)),
    ("flowType", .vU8 (if isIntraNode then flowTypeIntraNode else flowTypeInterNode)),
    ("flowEndReason", .vU8 (if isUpdatedRecord then endOfFlowReason else activeTimeoutReason)),
    ("tcpState", .vStr (if isUpdatedRecord then "TIME_WAIT" else "ESTABLISHED")),
    ("ingressNetworkPolicyRuleAction",
      .vU8 (if isIngressReject then ruleActionReject
            else if isIngressDrop then ruleActionDrop
            else ruleActionNoAction)),
    ("egressNetworkPolicyRuleAction", .vU8 ruleActionNoAction),
    ("ingressNetworkPolicyRulePriority", .vI32 50000),
    ("packetTotalCount", .vU64 (if isUpdatedRecord then 1005 else 502)),
    ("packetDeltaCount", .vU64 (if isUpdatedRecord then 503 else 0)),
    ("reversePacketTotalCount", .vU64 (if isUpdatedRecord then 1005 else 502)),
    ("reversePacketDeltaCount", .vU64 (if isUpdatedRecord then 503 else 0)) ]

/-- The template-set message built by `createMsgwithTemplateSet` (translated
from the test source; template records carry nil values). -/
def createMsgwithTemplateSet (isIPv6 : Bool) : Message :=
  { setType := .template
    records :=
      [[ (if isIPv6 then ("sourceIPv6Address", IEValue.vNone)
          else ("sourceIPv4Address", IEValue.vNone)),
         (if isIPv6 then ("destinationIPv6Address", IEValue.vNone)
          else ("destinationIPv4Address", IEValue.vNone)),
         ("sourceTransportPort", .vNone),
         ("destinationTransportPort", .vNone),
         ("protocolIdentifier", .vNone),
         ("sourcePodName", .vNone),
         ("destinationPodName", .vNone),
         (if isIPv6 then ("destinationClusterIPv6", IEValue.vNone)
          else ("destinationClusterIPv4", IEValue.vNone)),
         ("destinationServicePort", .vNone),
         ("flowEndSeconds", .vNone),
         ("flowType", .vNone),
         ("ingressNetworkPolicyRuleAction", .vNone),
         ("egressNetworkPolicyRuleAction", .vNone),
         ("ingressNetworkPolicyRulePriority", .vNone) ]]
    exportAddress := if isIPv6 then .v6 "::1" else .v4 "127.0.0.1"
    obsDomainID := 5678 }

/-- The data message built by `createDataMsgForSrc` (translated from the test
source). -/
def createDataMsgForSrc (isIPv6 isIntraNode isUpdatedRecord isToExternal isEgressDeny : Bool) : Message :=
  { setType := .data
    records := [createRecordForSrc isIPv6 isIntraNode isUpdatedRecord isToExternal isEgressDeny]
    exportAddress := if isIPv6 then .v6 "::1" else .v4 "127.0.0.1"
    obsDomainID := 1234 }

/-- The data message built by `createDataMsgForDst` (translated from the test
source). -/
def createDataMsgForDst (isIPv6 isIntraNode isUpdatedRecord isIngressReject isIngressDrop : Bool) : Message :=
  { setType := .data
    records := [createRecordForDst isIPv6 isIntraNode isUpdatedRecord isIngressReject isIngressDrop]
    exportAddress := if isIPv6 then .v6 "::1" else .v4 "127.0.0.1"
    obsDomainID := 1234 }

/-- The aggregation process of the correlation tests: correlate fields only,
no aggregation elements, the test expiry timeouts (100 ms and 150 ms modelled
as 100 and 150 ticks). -/
def testProcess : AggregationProcess :=
  { workerNum := 2
    correlateFields := testFields
    aggregateElements := none
    activeExpiryTimeout := 100
    inactiveExpiryTimeout := 150
    flowKeyRecordMap := []
    expirePriorityQueue := [] }

/-- The aggregation-element configuration of the test suite: the four aligned
element lists. -/
def testAggElements : AggregationElements :=
  { nonStatsElements := nonStatsElementList
    statsElements := statsElementList
    aggregatedSourceStatsElements := antreaSourceStatsElementList
    aggregatedDestinationStatsElements := antreaDestinationStatsElementList }

/-- The aggregation process of the statistics-aggregation tests: the four
aligned element lists are configured in addition. -/
def testAggProcess : AggregationProcess :=
  { testProcess with aggregateElements := some testAggElements }

/-- Lookup of the aggregated record stored in the map under a flow key. -/
def lookupMap (ap : AggregationProcess) (k : FlowKey) : Option AggregationFlowRecord :=
  (List.find? (fun e => e.1 = k) ap.flowKeyRecordMap).map Prod.snd

/-- Lookup of the priority-queue entry of a flow key. -/
def lookupQueue (ap : AggregationProcess) (k : FlowKey) : Option ItemToExpire :=
  List.find? (fun it => it.flowKey = k) ap.expirePriorityQueue

/-- One worker step: insert or merge a keyed record; on a malformed record the
error is logged and the process continues unchanged. -/
def applyRecord (ap : AggregationProcess) (op : Nat × FlowKey × Rec) : AggregationProcess :=
  match addOrUpdateRecordInMap ap op.1 op.2.1 op.2.2 with
  | .ok s => s
  | .error _ => ap

/-- A sequence of inserts and merges, each a (time, key, record) triple. -/
def runRecords (ap : AggregationProcess) (ops : List (Nat × FlowKey × Rec)) : AggregationProcess :=
  ops.foldl applyRecord ap

/-- The flow key of the IPv4 test records. -/
def flowKey1 : FlowKey := ⟨"10.0.0.1", "10.0.0.2", 6, 1234, 5678⟩

/-- The source-side IPv4 InterNode test record. -/
def srcRecIPv4 : Rec := createRecordForSrc false false false false false

/-- The destination-side IPv4 InterNode test record. -/
def dstRecIPv4 : Rec := createRecordForDst false false false false false

/-- The source-side IPv4 InterNode record with an egress Drop rule action. -/
def srcRecEgressDeny : Rec := createRecordForSrc false false false false true

/-- The destination-side IPv4 InterNode record with an ingress Reject rule
action. -/
def dstRecIngressReject : Rec := createRecordForDst false false false true false

/-- The process after aggregating the source-side then the destination-side
half-record (insert at time 0, merge at time 5). -/
def interNodeSrcThenDst : AggregationProcess :=
  runRecords testProcess [(0, flowKey1, srcRecIPv4), (5, flowKey1, dstRecIPv4)]

/-- The process after aggregating the half-records in the opposite order. -/
def interNodeDstThenSrc : AggregationProcess :=
  runRecords testProcess [(0, flowKey1, dstRecIPv4), (5, flowKey1, srcRecIPv4)]

/-- The process after inserting only the source-side half-record at time 0. -/
def corrState1 : AggregationProcess :=
  runRecords testProcess [(0, flowKey1, srcRecIPv4)]

/-- The statistics-aggregation process after inserting the source-side
half-record at time 0. -/
def aggState1 : AggregationProcess :=
  runRecords testAggProcess [(0, flowKey1, srcRecIPv4)]

/-- A sweep callback that always succeeds (the test callback only counts its
invocations). -/
def cbAlwaysTrue : FlowKey → AggregationFlowRecord → Bool := fun _ _ => true

/-- The aggregated record after correlating the two IPv4 half-records. -/
def corrReadyAgg : AggregationFlowRecord :=
  mergedRecordOf testProcess (insertedRecordOf testProcess srcRecIPv4) dstRecIPv4

/-- The alignment invariant between the map and the queue: the entries
correspond pointwise with equal keys and equal records — the functional
counterpart of the Go pointer sharing between map entries and heap items. -/
def mapQueueAligned (ap : AggregationProcess) : Prop :=
  List.Forall₂ (fun e it => e.1 = it.flowKey ∧ e.2 = it.flowRecord)
    ap.flowKeyRecordMap ap.expirePriorityQueue

/-- Well-formedness of the process state: alignment plus pairwise-distinct map
keys. -/
def wfProcess (ap : AggregationProcess) : Prop :=
  mapQueueAligned ap ∧ (ap.flowKeyRecordMap.map Prod.fst).Nodup

end GoIpfix

namespace GoIpfix

/-- C1 (counterexample): aggregating the source-side then the destination-side
half-record does NOT produce the identical merged record as the opposite
order: the aggregated record keeps the first-arriving half-record's values for
non-correlation fields, so packetTotalCount is 500 after source-first but 502
after destination-first. -/
theorem correlateInterNodeOrderDependent :
    (lookupMap interNodeSrcThenDst flowKey1).map AggregationFlowRecord.record ≠
      (lookupMap interNodeDstThenSrc flowKey1).map AggregationFlowRecord.record ∧
    (lookupMap interNodeSrcThenDst flowKey1).bind
        (fun a => lookupIE a.record "packetTotalCount") = some (.vU64 500) ∧
    (lookupMap interNodeDstThenSrc flowKey1).bind
        (fun a => lookupIE a.record "packetTotalCount") = some (.vU64 502) :=
  ⟨by decide, by decide, by decide⟩

/-- C1 (amended): for the InterNode flow the two aggregation orders produce
merged records that agree on every configured correlation field — the first
non-empty value wins for each (sourcePodName "pod1", destinationPodName
"pod2", destinationClusterIPv4 192.168.0.1, destinationServicePort 4739,
ingressNetworkPolicyRulePriority 50000) — and both orders end ReadyToSend;
the records differ only in non-correlation fields (statistics). -/
theorem correlateInterNodeOrderAgreement :
    (lookupMap interNodeSrcThenDst flowKey1).map AggregationFlowRecord.readyToSend = some true ∧
    (lookupMap interNodeDstThenSrc flowKey1).map AggregationFlowRecord.readyToSend = some true ∧
    (lookupMap interNodeSrcThenDst flowKey1).map (fun a =>
        (lookupIE a.record "sourcePodName", lookupIE a.record "destinationPodName",
         lookupIE a.record "destinationClusterIPv4", lookupIE a.record "destinationServicePort",
         lookupIE a.record "ingressNetworkPolicyRulePriority")) =
      some (some (.vStr "pod1"), some (.vStr "pod2"), some (.vIP "192.168.0.1"),
            some (.vU16 4739), some (.vI32 50000)) ∧
    (lookupMap interNodeDstThenSrc flowKey1).map (fun a =>
        (lookupIE a.record "sourcePodName", lookupIE a.record "destinationPodName",
         lookupIE a.record "destinationClusterIPv4", lookupIE a.record "destinationServicePort",
         lookupIE a.record "ingressNetworkPolicyRulePriority")) =
      some (some (.vStr "pod1"), some (.vStr "pod2"), some (.vIP "192.168.0.1"),
            some (.vU16 4739), some (.vI32 50000)) ∧
    (lookupMap interNodeSrcThenDst flowKey1).map (fun a => testFields.map (lookupIE a.record)) =
      (lookupMap interNodeDstThenSrc flowKey1).map (fun a => testFields.map (lookupIE a.record)) :=
  ⟨by decide, by decide, by decide, by decide, by decide⟩

/-- C9: when the sole heap entry is due, a not-ready record whose incremented
retry counter reaches MaxRetries is removed from both the map and the heap
without any callback invocation, while a ready record gets exactly one
callback invocation and, on callback success, is removed from both. -/
theorem sweepExpiredSpec (ap : AggregationProcess) (now maxRetries : Nat)
    (cb : FlowKey → AggregationFlowRecord → Bool) (it : ItemToExpire)
    (hq : ap.expirePriorityQueue = [it])
    (hm : ap.flowKeyRecordMap = [(it.flowKey, it.flowRecord)])
    (hdue : ¬(now < it.activeExpireTime ∧ now < it.inactiveExpireTime)) :
    (it.flowRecord.readyToSend = false →
     maxRetries ≤ it.flowRecord.waitForReadyToSendRetries + 1 →
     ∃ ap', ForAllExpiredFlowRecordsDo ap now maxRetries cb = .ok (ap', []) ∧
       ap'.flowKeyRecordMap = [] ∧ ap'.expirePriorityQueue = []) ∧
    (it.flowRecord.readyToSend = true →
     cb it.flowKey it.flowRecord = true →
     ∃ ap', ForAllExpiredFlowRecordsDo ap now maxRetries cb =
         .ok (ap', [(it.flowKey, it.flowRecord)]) ∧
       ap'.flowKeyRecordMap = [] ∧ ap'.expirePriorityQueue = []) := by
  have hguard : (decide (now < it.activeExpireTime) &&
      decide (now < it.inactiveExpireTime)) = false := by
    rcases not_and_or.mp hdue with h | h <;> simp [h]
  constructor
  · intro hready hcap
    refine ⟨removeEntry ap it.flowKey, ?_, ?_, ?_⟩
    · unfold ForAllExpiredFlowRecordsDo
      rw [hq, List.length_singleton]
      simp only [sweepLoop, hq]
      simp [peekQueue, hguard, hready, hcap]
    · simp [removeEntry, hm]
    · simp [removeEntry, hq]
  · intro hready hcb
    refine ⟨removeEntry ap it.flowKey, ?_, ?_, ?_⟩
    · unfold ForAllExpiredFlowRecordsDo
      rw [hq, List.length_singleton]
      simp only [sweepLoop, hq]
      simp [peekQueue, hguard, hready, hcb]
    · simp [removeEntry, hm]
    · simp [removeEntry, hq]

/-- C9 (witness): sweeping the not-ready source-half process at its active
expiry with MaxRetries 1 drops the entry with no callback; sweeping the
correlated ready process invokes the callback exactly once and empties both
structures. -/
theorem sweepExpiredSpecWitness :
    (∃ ap', ForAllExpiredFlowRecordsDo corrState1 100 1 cbAlwaysTrue = .ok (ap', []) ∧
      ap'.flowKeyRecordMap = [] ∧ ap'.expirePriorityQueue = []) ∧
    (∃ ap', ForAllExpiredFlowRecordsDo interNodeSrcThenDst 100 1 cbAlwaysTrue =
        .ok (ap', [(flowKey1, corrReadyAgg)]) ∧
      ap'.flowKeyRecordMap = [] ∧ ap'.expirePriorityQueue = []) :=
  ⟨(sweepExpiredSpec corrState1 100 1 cbAlwaysTrue
      ⟨flowKey1, ⟨srcRecIPv4, false, 0⟩, 100, 150⟩
      (by decide) (by decide) (by decide)).1 (by decide) (by decide),
   (sweepExpiredSpec interNodeSrcThenDst 100 1 cbAlwaysTrue
      ⟨flowKey1, corrReadyAgg, 100, 155⟩
      (by decide) (by decide) (by decide)).2 (by decide) (by decide)⟩

/-- C10: `addOriginalExporterInfo` annotates the records of template-set and
data-set messages alike: every record gains the exporter-address element of
the message's address family and the originalObservationDomainId element; in
data records the values are the message's export address and observation
domain id, in template records they are nil. -/
theorem addOriginalExporterInfoSpec (msg : Message)
    (hfresh : ∀ r ∈ msg.records,
      lookupIE r "originalExporterIPv4Address" = none ∧
      lookupIE r "originalExporterIPv6Address" = none ∧
      lookupIE r "originalObservationDomainId" = none) :
    ∀ r' ∈ (addOriginalExporterInfo msg).records,
      (match msg.exportAddress with
       | .v4 a => lookupIE r' "originalExporterIPv4Address" =
           some (match msg.setType with
                 | .template => IEValue.vNone
                 | .data => IEValue.vIP a)
       | .v6 a => lookupIE r' "originalExporterIPv6Address" =
           some (match msg.setType with
                 | .template => IEValue.vNone
                 | .data => IEValue.vIP a)) ∧
      lookupIE r' "originalObservationDomainId" =
        some (match msg.setType with
              | .template => IEValue.vNone
              | .data => IEValue.vU32 msg.obsDomainID) := by
  intro r' hr'
  simp only [addOriginalExporterInfo, List.mem_map] at hr'
  obtain ⟨r, hr, rfl⟩ := hr'
  obtain ⟨f1, f2, f3⟩ := hfresh r hr
  have f1' : List.find? (fun p => p.1 = "originalExporterIPv4Address") r = none := by
    simpa [lookupIE, Option.map_eq_none'] using f1
  have f2' : List.find? (fun p => p.1 = "originalExporterIPv6Address") r = none := by
    simpa [lookupIE, Option.map_eq_none'] using f2
  have f3' : List.find? (fun p => p.1 = "originalObservationDomainId") r = none := by
    simpa [lookupIE, Option.map_eq_none'] using f3
  rcases haddr : msg.exportAddress with a | a <;> rcases hst : msg.setType with _ | _ <;>
    simp [annotateRecord, haddr, hst, lookupIE, List.find?_append, f1', f2', f3']

/-- C10 (witness): the IPv4 data test message's record is annotated with
originalExporterIPv4Address 127.0.0.1 and originalObservationDomainId 1234;
the IPv6 template test message's record gains both elements with nil values. -/
theorem addOriginalExporterInfoSpecWitness :
    lookupIE (annotateRecord (createDataMsgForSrc false false false false false) srcRecIPv4)
        "originalExporterIPv4Address" = some (.vIP "127.0.0.1") ∧
    lookupIE (annotateRecord (createDataMsgForSrc false false false false false) srcRecIPv4)
        "originalObservationDomainId" = some (.vU32 1234) ∧
    ((addOriginalExporterInfo (createMsgwithTemplateSet true)).records.map (fun r' =>
        (lookupIE r' "originalExporterIPv6Address",
         lookupIE r' "originalObservationDomainId"))) =
      [(some IEValue.vNone, some IEValue.vNone)] := by
  have h := addOriginalExporterInfoSpec (createDataMsgForSrc false false false false false)
    (by decide)
  have h2 := h (annotateRecord (createDataMsgForSrc false false false false false) srcRecIPv4)
    (List.mem_singleton.mpr rfl)
  exact ⟨h2.1, h2.2, by decide⟩

/-- The heap root is a member of the queue. -/
theorem peekQueue_mem : ∀ (q : List ItemToExpire) (it : ItemToExpire),
    peekQueue q = some it → it ∈ q
  | [], it, h => by simp [peekQueue] at h
  | x :: q, it, h => by
    simp only [peekQueue] at h
    cases hp : peekQueue q with
    | none =>
      simp only [hp] at h
      injection h with h
      rw [← h]
      exact List.mem_cons_self x q
    | some it' =>
      simp only [hp] at h
      by_cases hle : itemPriority x ≤ itemPriority it'
      · rw [if_pos hle] at h
        injection h with h
        rw [← h]
        exact List.mem_cons_self x q
      · rw [if_neg hle] at h
        injection h with h
        rw [← h]
        exact List.mem_cons_of_mem x (peekQueue_mem q it' hp)

/-- In an aligned pair of lists, every queue item's key is a map key. -/
theorem aligned_key_mem : ∀ (m : List (FlowKey × AggregationFlowRecord))
    (q : List ItemToExpire),
    List.Forall₂ (fun e it => e.1 = it.flowKey ∧ e.2 = it.flowRecord) m q →
    ∀ it ∈ q, it.flowKey ∈ m.map Prod.fst
  | [], [], _, it, hmem => by cases hmem
  | [], _ :: _, hal, _, _ => by cases hal
  | _ :: _, [], hal, _, _ => by cases hal
  | a :: m, b :: q, hal, it, hmem => by
    obtain ⟨⟨hk, _⟩, htail⟩ := List.forall₂_cons.mp hal
    cases hmem with
    | head => simp [hk]
    | tail _ hmem' => exact List.mem_cons_of_mem _ (aligned_key_mem m q htail it hmem')

/-- In an aligned pair of lists with distinct keys, looking a queue item's key
up in the map finds exactly that item's record. -/
theorem aligned_lookup : ∀ (m : List (FlowKey × AggregationFlowRecord))
    (q : List ItemToExpire),
    List.Forall₂ (fun e it => e.1 = it.flowKey ∧ e.2 = it.flowRecord) m q →
    (m.map Prod.fst).Nodup → ∀ it ∈ q,
    List.find? (fun e => e.1 = it.flowKey) m = some (it.flowKey, it.flowRecord)
  | [], [], _, _, it, hmem => by cases hmem
  | [], _ :: _, hal, _, _, _ => by cases hal
  | _ :: _, [], hal, _, _, _ => by cases hal
  | a :: m, b :: q, hal, hnd, it, hmem => by
    obtain ⟨⟨hk, hr⟩, htail⟩ := List.forall₂_cons.mp hal
    obtain ⟨hna, hnd'⟩ := List.nodup_cons.mp hnd
    cases hmem with
    | head =>
      rw [List.find?_cons_of_pos _ (by simp [hk])]
      rw [← hk, ← hr]
    | tail _ hmem' =>
      have hkey : it.flowKey ∈ m.map Prod.fst := aligned_key_mem m q htail it hmem'
      have hne : ¬ a.1 = it.flowKey := fun hh => hna (hh ▸ hkey)
      rw [List.find?_cons_of_neg _ (by simpa using hne)]
      exact aligned_lookup m q htail hnd' it hmem'

/-- One insert-or-merge step preserves well-formedness. -/
theorem wfProcess_applyRecord (ap : AggregationProcess) (op : Nat × FlowKey × Rec)
    (h : wfProcess ap) : wfProcess (applyRecord ap op) := by
  unfold applyRecord
  cases hstep : addOrUpdateRecordInMap ap op.1 op.2.1 op.2.2 with
  | error e => exact h
  | ok s =>
    unfold addOrUpdateRecordInMap at hstep
    by_cases hv : hasValidFlowEnd op.2.2
    · rw [if_neg (by simp [hv])] at hstep
      cases hfind : List.find? (fun e => e.1 = op.2.1) ap.flowKeyRecordMap with
      | some e =>
        rw [hfind] at hstep
        injection hstep with hs
        rw [← hs]
        constructor
        · have hal := h.1
          unfold mapQueueAligned at hal ⊢
          rw [List.forall₂_map_left_iff, List.forall₂_map_right_iff]
          refine hal.imp ?_
          intro x y hxy
          by_cases hx : x.1 = op.2.1
          · have hy : y.flowKey = op.2.1 := by rw [← hxy.1]; exact hx
            rw [if_pos hx, if_pos hy]
            exact ⟨hxy.1, rfl⟩
          · have hy : ¬ y.flowKey = op.2.1 := by rw [← hxy.1]; exact hx
            rw [if_neg hx, if_neg hy]
            exact hxy
        · have hkeys : (List.map
              (fun e' => if e'.1 = op.2.1
                then (e'.1, mergedRecordOf ap e.2 op.2.2) else e')
              ap.flowKeyRecordMap).map Prod.fst = ap.flowKeyRecordMap.map Prod.fst := by
            rw [List.map_map]
            refine List.map_congr_left ?_
            intro x _
            by_cases hx : x.1 = op.2.1 <;> simp [hx]
          rw [hkeys]
          exact h.2
      | none =>
        rw [hfind] at hstep
        injection hstep with hs
        rw [← hs]
        constructor
        · have hal := h.1
          unfold mapQueueAligned at hal ⊢
          exact List.rel_append hal
            (List.Forall₂.cons ⟨rfl, rfl⟩ List.Forall₂.nil)
        · have hnotin : op.2.1 ∉ ap.flowKeyRecordMap.map Prod.fst := by
            intro hmem
            obtain ⟨x, hx, hxk⟩ := List.mem_map.mp hmem
            exact absurd (by simpa using hxk)
              (by simpa using List.find?_eq_none.mp hfind x hx)
          simp only [List.map_append, List.map_cons, List.map_nil]
          rw [List.nodup_append]
          exact ⟨h.2, List.nodup_singleton _,
            by simpa [List.disjoint_singleton] using hnotin⟩
    · rw [if_pos (by simp [hv])] at hstep
      cases hstep

/-- Every sequence of inserts and merges preserves well-formedness. -/
theorem wfProcess_runRecords : ∀ (ops : List (Nat × FlowKey × Rec))
    (ap : AggregationProcess), wfProcess ap → wfProcess (runRecords ap ops)
  | [], _, h => h
  | op :: ops, ap, h =>
    wfProcess_runRecords ops (applyRecord ap op) (wfProcess_applyRecord ap op h)

/-- C8: starting from an empty process, after any sequence of inserts and
merges the flow-key map and the expiry priority queue have the same number of
entries, and the heap root's flow record is the map's aggregated record for
the root's key. -/
theorem mapQueueConsistencySpec (ap0 : AggregationProcess)
    (h0m : ap0.flowKeyRecordMap = []) (h0q : ap0.expirePriorityQueue = [])
    (ops : List (Nat × FlowKey × Rec)) :
    (runRecords ap0 ops).flowKeyRecordMap.length =
      (runRecords ap0 ops).expirePriorityQueue.length ∧
    ∀ it, peekQueue (runRecords ap0 ops).expirePriorityQueue = some it →
      lookupMap (runRecords ap0 ops) it.flowKey = some it.flowRecord := by
  have hwf0 : wfProcess ap0 := by
    constructor
    · unfold mapQueueAligned
      rw [h0m, h0q]
      exact List.Forall₂.nil
    · rw [h0m]
      exact List.nodup_nil
  have hwf := wfProcess_runRecords ops ap0 hwf0
  constructor
  · exact List.Forall₂.length_eq hwf.1
  · intro it hpeek
    have hmem := peekQueue_mem _ it hpeek
    have hfound := aligned_lookup _ _ hwf.1 hwf.2 it hmem
    simp [lookupMap, hfound]

/-- C8 (witness): after inserting the source half-record into the fresh test
process, map and queue both hold one entry and the heap root's record is the
map's record for the root's key. -/
theorem mapQueueConsistencySpecWitness :
    corrState1.flowKeyRecordMap.length = corrState1.expirePriorityQueue.length ∧
    lookupMap corrState1 flowKey1 = some ⟨srcRecIPv4, false, 0⟩ := by
  have h := mapQueueConsistencySpec testProcess rfl rfl [(0, flowKey1, srcRecIPv4)]
  exact ⟨h.1, h.2 ⟨flowKey1, ⟨srcRecIPv4, false, 0⟩, 100, 150⟩ (by decide)⟩

/-- C4: `InitAggregationProcess` fails on a nil message channel and succeeds
otherwise, the returned process carrying the input's worker count. -/
theorem initAggregationProcessSpec (input : AggregationInput) :
    (input.messageChanPresent = false →
      ∃ e, InitAggregationProcess input = .error e) ∧
    (input.messageChanPresent = true →
      ∃ ap, InitAggregationProcess input = .ok ap ∧ ap.workerNum = input.workerNum) := by
  constructor
  · intro h
    refine ⟨"InvalidConfiguration: cannot create AggregationProcess without message channel", ?_⟩
    simp [InitAggregationProcess, h]
  · intro h
    refine ⟨{ workerNum := input.workerNum, correlateFields := input.correlateFields,
              aggregateElements := input.aggregateElements,
              activeExpiryTimeout := input.activeExpiryTimeout,
              inactiveExpiryTimeout := input.inactiveExpiryTimeout,
              flowKeyRecordMap := [], expirePriorityQueue := [] }, ?_, rfl⟩
    simp [InitAggregationProcess, h]

/-- C4 (witness): with a nil channel and worker count 2 initialisation fails;
with a channel present it succeeds with workerNum 2. -/
theorem initAggregationProcessSpecWitness :
    (∃ e, InitAggregationProcess
        ⟨false, 2, testFields, none, 100, 150⟩ = .error e) ∧
    (∃ ap, InitAggregationProcess
        ⟨true, 2, testFields, none, 100, 150⟩ = .ok ap ∧ ap.workerNum = 2) :=
  ⟨(initAggregationProcessSpec ⟨false, 2, testFields, none, 100, 150⟩).1 rfl,
   (initAggregationProcessSpec ⟨true, 2, testFields, none, 100, 150⟩).2 rfl⟩

/-- C5: a message carrying a template set is silently dropped — aggregation
succeeds and both the flow-key map and the expiry priority queue are exactly
as before. -/
theorem aggregateTemplateMsgIgnored (ap : AggregationProcess) (now : Nat) (msg : Message)
    (h : msg.setType = .template) :
    ∃ ap', AggregateMsgByFlowKey ap now msg = .ok ap' ∧
      ap'.flowKeyRecordMap = ap.flowKeyRecordMap ∧
      ap'.expirePriorityQueue = ap.expirePriorityQueue := by
  refine ⟨ap, ?_, rfl, rfl⟩
  simp [AggregateMsgByFlowKey, addOriginalExporterInfo, h]

/-- C5 (witness): feeding the IPv4 template-set test message to the fresh test
process leaves the map and the queue empty with no error. -/
theorem aggregateTemplateMsgIgnoredWitness :
    ∃ ap', AggregateMsgByFlowKey testProcess 0 (createMsgwithTemplateSet false) = .ok ap' ∧
      ap'.flowKeyRecordMap = [] ∧ ap'.expirePriorityQueue = [] :=
  aggregateTemplateMsgIgnored testProcess 0 (createMsgwithTemplateSet false) rfl

/-- Erasing the entry of key `k` leaves no entry with key `k` when the keys
are pairwise distinct. -/
theorem find?_key_eraseP_self {α κ : Type _} [DecidableEq κ] (key : α → κ) (k : κ) :
    ∀ (l : List α), (l.map key).Nodup →
      List.find? (fun a => key a = k) (l.eraseP (fun a => key a = k)) = none
  | [], _ => rfl
  | a :: l, h => by
    rcases List.nodup_cons.mp h with ⟨hka, hl⟩
    by_cases hak : key a = k
    · rw [List.eraseP_cons_of_pos (by simpa using hak)]
      apply List.find?_eq_none.mpr
      intro x hx
      simp only [decide_eq_true_eq]
      intro hxk
      exact hka (List.mem_map.mpr ⟨x, hx, by rw [hxk, hak]⟩)
    · rw [List.eraseP_cons_of_neg (by simpa using hak),
        List.find?_cons_of_neg _ (by simpa using hak)]
      exact find?_key_eraseP_self key k l hl

/-- Erasing the entry of key `k` does not affect lookups of any other key. -/
theorem find?_key_eraseP_ne {α κ : Type _} [DecidableEq κ] (key : α → κ) (k k' : κ)
    (hne : k' ≠ k) :
    ∀ (l : List α),
      List.find? (fun a => key a = k') (l.eraseP (fun a => key a = k)) =
        List.find? (fun a => key a = k') l
  | [] => rfl
  | a :: l => by
    by_cases hak : key a = k
    · have hak' : ¬ key a = k' := by
        intro hh
        exact hne (by rw [← hh]; exact hak)
      rw [List.eraseP_cons_of_pos (by simpa using hak),
        List.find?_cons_of_neg _ (by simpa using hak')]
    · rw [List.eraseP_cons_of_neg (by simpa using hak)]
      by_cases hak' : key a = k'
      · rw [List.find?_cons_of_pos _ (by simpa using hak'),
          List.find?_cons_of_pos _ (by simpa using hak')]
      · rw [List.find?_cons_of_neg _ (by simpa using hak'),
          List.find?_cons_of_neg _ (by simpa using hak')]
        exact find?_key_eraseP_ne key k k' hne l

/-- C7: `deleteFlowKeyFromMap` fails with NotFound on an absent key; on a
present key it succeeds and removes exactly that entry — the key is gone, the
map shrinks by one, and every other key's entry is untouched. -/
theorem deleteFlowKeyFromMapSpec (ap : AggregationProcess) (k : FlowKey)
    (hnodup : (ap.flowKeyRecordMap.map Prod.fst).Nodup) :
    (lookupMap ap k = none → ∃ e, deleteFlowKeyFromMap ap k = .error e) ∧
    (∀ a, lookupMap ap k = some a →
      ∃ ap', deleteFlowKeyFromMap ap k = .ok ap' ∧
        lookupMap ap' k = none ∧
        ap'.flowKeyRecordMap.length + 1 = ap.flowKeyRecordMap.length ∧
        ∀ k', k' ≠ k → lookupMap ap' k' = lookupMap ap k') := by
  constructor
  · intro h
    have hf : List.find? (fun e => e.1 = k) ap.flowKeyRecordMap = none := by
      simpa [lookupMap, Option.map_eq_none'] using h
    refine ⟨"NotFound: flow key is not present in the map", ?_⟩
    simp [deleteFlowKeyFromMap, hf]
  · intro a h
    obtain ⟨e, hf, _⟩ := Option.map_eq_some'.mp h
    refine ⟨removeEntry ap k, by simp [deleteFlowKeyFromMap, hf], ?_, ?_, ?_⟩
    · simp only [lookupMap, removeEntry, Option.map_eq_none']
      exact find?_key_eraseP_self Prod.fst k ap.flowKeyRecordMap hnodup
    · have hpa := List.find?_some hf
      exact List.length_eraseP_add_one (List.mem_of_find?_eq_some hf) hpa
    · intro k' hne
      simp only [lookupMap, removeEntry]
      rw [find?_key_eraseP_ne Prod.fst k k' hne]

/-- Updating in place the entries of key `k` commutes with lookup: the lookup
of `k` after the update is the update of the lookup. -/
theorem find?_map_update {α κ : Type _} [DecidableEq κ] (key : α → κ) (k : κ) (g : α → α)
    (hg : ∀ a, key (g a) = key a) :
    ∀ (l : List α),
      List.find? (fun a => key a = k) (l.map (fun a => if key a = k then g a else a)) =
        (List.find? (fun a => key a = k) l).map g
  | [] => rfl
  | a :: l => by
    by_cases hak : key a = k
    · simp only [List.map_cons, if_pos hak]
      rw [List.find?_cons_of_pos _ (by simp [hg, hak]),
        List.find?_cons_of_pos _ (by simpa using hak)]
      rfl
    · simp only [List.map_cons, if_neg hak]
      rw [List.find?_cons_of_neg _ (by simpa using hak),
        List.find?_cons_of_neg _ (by simpa using hak)]
      exact find?_map_update key k g hg l

/-- C3: merging a record for an existing key leaves the heap entry's active
expiry unchanged and refreshes its inactive expiry to now +
InactiveExpiryTimeout; only insertion of a new key sets the active expiry, to
now + ActiveExpiryTimeout. -/
theorem mergeKeepsActiveExpirySpec :
    (∀ (ap : AggregationProcess) (now : Nat) (k : FlowKey) (r : Rec)
       (a : AggregationFlowRecord) (it : ItemToExpire),
       hasValidFlowEnd r = true →
       lookupMap ap k = some a →
       lookupQueue ap k = some it →
       ∃ ap', addOrUpdateRecordInMap ap now k r = .ok ap' ∧
         ∃ it', lookupQueue ap' k = some it' ∧
           it'.activeExpireTime = it.activeExpireTime ∧
           it'.inactiveExpireTime = now + ap.inactiveExpiryTimeout) ∧
    (∀ (ap : AggregationProcess) (now : Nat) (k : FlowKey) (r : Rec),
       hasValidFlowEnd r = true →
       lookupMap ap k = none →
       lookupQueue ap k = none →
       ∃ ap', addOrUpdateRecordInMap ap now k r = .ok ap' ∧
         ∃ it', lookupQueue ap' k = some it' ∧
           it'.activeExpireTime = now + ap.activeExpiryTimeout ∧
           it'.inactiveExpireTime = now + ap.inactiveExpiryTimeout) := by
  constructor
  · intro ap now k r a it hv hm hq
    obtain ⟨e, hf, -⟩ := Option.map_eq_some'.mp hm
    refine ⟨{ ap with
        flowKeyRecordMap := ap.flowKeyRecordMap.map
          (fun e' => if e'.1 = k then (e'.1, mergedRecordOf ap e.2 r) else e'),
        expirePriorityQueue := ap.expirePriorityQueue.map (fun it' =>
          if it'.flowKey = k then
            { it' with flowRecord := mergedRecordOf ap e.2 r,
                       inactiveExpireTime := now + ap.inactiveExpiryTimeout }
          else it') }, ?_, ?_⟩
    · simp [addOrUpdateRecordInMap, hv, hf]
    · refine ⟨{ it with flowRecord := mergedRecordOf ap e.2 r,
                        inactiveExpireTime := now + ap.inactiveExpiryTimeout }, ?_, rfl, rfl⟩
      simp only [lookupQueue] at hq ⊢
      rw [find?_map_update ItemToExpire.flowKey k
        (fun it' => { it' with flowRecord := mergedRecordOf ap e.2 r,
                               inactiveExpireTime := now + ap.inactiveExpiryTimeout })
        (fun _ => rfl) ap.expirePriorityQueue, hq]
      rfl
  · intro ap now k r hv hm hq
    have hf : List.find? (fun e => e.1 = k) ap.flowKeyRecordMap = none := by
      simpa [lookupMap, Option.map_eq_none'] using hm
    refine ⟨{ ap with
        flowKeyRecordMap := ap.flowKeyRecordMap ++ [(k, insertedRecordOf ap r)],
        expirePriorityQueue := ap.expirePriorityQueue ++
          [⟨k, insertedRecordOf ap r, now + ap.activeExpiryTimeout,
            now + ap.inactiveExpiryTimeout⟩] }, ?_, ?_⟩
    · simp [addOrUpdateRecordInMap, hv, hf]
    · refine ⟨⟨k, insertedRecordOf ap r, now + ap.activeExpiryTimeout,
        now + ap.inactiveExpiryTimeout⟩, ?_, rfl, rfl⟩
      simp only [lookupQueue] at hq ⊢
      rw [List.find?_append, hq]
      simp

/-- C3 (witness): merging the destination half-record at time 5 into the
process that inserted the source half at time 0 keeps the active expiry at 100
and refreshes the inactive expiry to 155; the initial insertion itself set
active expiry 100 and inactive expiry 150. -/
theorem mergeKeepsActiveExpirySpecWitness :
    (∃ ap', addOrUpdateRecordInMap corrState1 5 flowKey1 dstRecIPv4 = .ok ap' ∧
      ∃ it', lookupQueue ap' flowKey1 = some it' ∧
        it'.activeExpireTime = 100 ∧ it'.inactiveExpireTime = 155) ∧
    (∃ ap', addOrUpdateRecordInMap testProcess 0 flowKey1 srcRecIPv4 = .ok ap' ∧
      ∃ it', lookupQueue ap' flowKey1 = some it' ∧
        it'.activeExpireTime = 100 ∧ it'.inactiveExpireTime = 150) := by
  constructor
  · obtain ⟨ap', h1, it', h2, h3, h4⟩ := mergeKeepsActiveExpirySpec.1 corrState1 5 flowKey1
      dstRecIPv4 ⟨srcRecIPv4, false, 0⟩ ⟨flowKey1, ⟨srcRecIPv4, false, 0⟩, 100, 150⟩
      (by decide) (by decide) (by decide)
    exact ⟨ap', h1, it', h2, h3, h4⟩
  · obtain ⟨ap', h1, it', h2, h3, h4⟩ := mergeKeepsActiveExpirySpec.2 testProcess 0 flowKey1
      srcRecIPv4 (by decide) (by decide) (by decide)
    exact ⟨ap', h1, it', h2, h3, h4⟩

/-- Unfolding of `setIE` on a cons cell. -/
theorem setIE_cons (p : String × IEValue) (r : Rec) (n : String) (v : IEValue) :
    setIE (p :: r) n v = (if p.1 = n then (p.1, v) else p) :: setIE r n v := rfl

/-- Lookup on a cons cell: the head wins when its name matches. -/
theorem lookupIE_cons (p : String × IEValue) (r : Rec) (n : String) :
    lookupIE (p :: r) n = if p.1 = n then some p.2 else lookupIE r n := by
  by_cases h : p.1 = n <;> simp [lookupIE, h]

/-- Overwriting a name and then looking it up returns the new value whenever
the name was present. -/
theorem lookupIE_setIE_self (r : Rec) (n : String) (v : IEValue) :
    lookupIE (setIE r n v) n = (lookupIE r n).map (fun _ => v) := by
  induction r with
  | nil => rfl
  | cons p r ih =>
    rw [setIE_cons]
    by_cases h : p.1 = n
    · simp [h, lookupIE_cons]
    · simp [h, lookupIE_cons, ih]

/-- Overwriting one name leaves lookups of any other name unchanged. -/
theorem lookupIE_setIE_ne (r : Rec) (n n' : String) (v : IEValue) (h : n' ≠ n) :
    lookupIE (setIE r n v) n' = lookupIE r n' := by
  induction r with
  | nil => rfl
  | cons p r ih =>
    rw [setIE_cons]
    by_cases hp : p.1 = n
    · have hp' : ¬ p.1 = n' := by rw [hp]; exact fun hh => h hh.symm
      simp [lookupIE_cons, hp, hp', ih, Ne.symm h]
    · by_cases hp' : p.1 = n'
      · simp [lookupIE_cons, hp, hp', h]
      · simp [lookupIE_cons, hp, hp', ih]

/-- Unfolding of `updateMirrors` on aligned cons cells. -/
theorem updateMirrors_cons (s m : String) (ss ms : List String) (rl acc : Rec) :
    updateMirrors (s :: ss) (m :: ms) rl acc =
      updateMirrors ss ms rl
        (match lookupIE rl s with
         | some v => setIE acc m v
         | none => acc) := rfl

/-- The per-side mirror update touches only the mirror names. -/
theorem lookupIE_updateMirrors_notMem (rl : Rec) (n : String) :
    ∀ (stats mirrors : List String) (acc : Rec), n ∉ mirrors →
      lookupIE (updateMirrors stats mirrors rl acc) n = lookupIE acc n
  | [], _, acc, _ => rfl
  | _ :: _, [], acc, _ => rfl
  | s :: ss, m :: ms, acc, hn => by
    have hne : n ≠ m := fun hh => hn (by rw [hh]; exact List.mem_cons_self m ms)
    have hms : n ∉ ms := fun hh => hn (List.mem_cons_of_mem m hh)
    rw [updateMirrors_cons]
    cases hle : lookupIE rl s with
    | none =>
      exact lookupIE_updateMirrors_notMem rl n ss ms acc hms
    | some v =>
      rw [lookupIE_updateMirrors_notMem rl n ss ms (setIE acc m v) hms]
      exact lookupIE_setIE_ne acc m n v hne

/-- The statistics merge of one subsequent record under the test
configuration: every `*TotalCount*` element becomes the maximum of existing
and latest, every `*DeltaCount*` element their sum, and every non-statistical
element takes the latest record's value. -/
theorem aggregateStatsMergeSpec (re rl : Rec)
    (pt1 pd1 rpt1 rpd1 pt2 pd2 rpt2 rpd2 : Nat) (vEnd vReason vState : IEValue)
    (h1 : lookupIE re "packetTotalCount" = some (.vU64 pt1))
    (h2 : lookupIE re "packetDeltaCount" = some (.vU64 pd1))
    (h3 : lookupIE re "reversePacketTotalCount" = some (.vU64 rpt1))
    (h4 : lookupIE re "reversePacketDeltaCount" = some (.vU64 rpd1))
    (h5 : lookupIE rl "packetTotalCount" = some (.vU64 pt2))
    (h6 : lookupIE rl "packetDeltaCount" = some (.vU64 pd2))
    (h7 : lookupIE rl "reversePacketTotalCount" = some (.vU64 rpt2))
    (h8 : lookupIE rl "reversePacketDeltaCount" = some (.vU64 rpd2))
    (h9 : lookupIE rl "flowEndSeconds" = some vEnd)
    (h10 : lookupIE rl "flowEndReason" = some vReason)
    (h11 : lookupIE rl "tcpState" = some vState)
    (h12 : ∃ v, lookupIE re "flowEndSeconds" = some v)
    (h13 : ∃ v, lookupIE re "flowEndReason" = some v)
    (h14 : ∃ v, lookupIE re "tcpState" = some v) :
    lookupIE (aggregateStats testAggElements re rl) "packetTotalCount" =
      some (.vU64 (Nat.max pt1 pt2)) ∧
    lookupIE (aggregateStats testAggElements re rl) "packetDeltaCount" =
      some (.vU64 (pd1 + pd2)) ∧
    lookupIE (aggregateStats testAggElements re rl) "reversePacketTotalCount" =
      some (.vU64 (Nat.max rpt1 rpt2)) ∧
    lookupIE (aggregateStats testAggElements re rl) "reversePacketDeltaCount" =
      some (.vU64 (rpd1 + rpd2)) ∧
    lookupIE (aggregateStats testAggElements re rl) "flowEndSeconds" = some vEnd ∧
    lookupIE (aggregateStats testAggElements re rl) "flowEndReason" = some vReason ∧
    lookupIE (aggregateStats testAggElements re rl) "tcpState" = some vState := by
  have c1 : strContains "packetTotalCount" "TotalCount" = true := by decide
  have c2 : strContains "packetDeltaCount" "TotalCount" = false := by decide
  have c3 : strContains "packetDeltaCount" "DeltaCount" = true := by decide
  have c4 : strContains "reversePacketTotalCount" "TotalCount" = true := by decide
  have c5 : strContains "reversePacketDeltaCount" "TotalCount" = false := by decide
  have c6 : strContains "reversePacketDeltaCount" "DeltaCount" = true := by decide
  cases hsrc : isRecordFromSrc rl <;> cases hdst : isRecordFromDst rl <;>
    simp [aggregateStats, testAggElements, nonStatsElementList, statsElementList,
      antreaSourceStatsElementList, antreaDestinationStatsElementList,
      List.foldl_cons, List.foldl_nil, hsrc, hdst,
      h1, h2, h3, h4, h5, h6, h7, h8, h9, h10, h11,
      c1, c2, c3, c4, c5, c6, mergeStatValue,
      lookupIE_setIE_self, lookupIE_setIE_ne, lookupIE_updateMirrors_notMem,
      h12, h13, h14]

/-- Filling one correlation field leaves lookups of any other name alone. -/
theorem lookupIE_correlateField_ne (existing incoming : Rec) (f n : String) (h : n ≠ f) :
    lookupIE (correlateField existing incoming f) n = lookupIE existing n := by
  rcases hli : lookupIE incoming f with _ | vIn
  · simp [correlateField, hli]
  · rcases hle : lookupIE existing f with _ | vEx
    · have hred : correlateField existing incoming f = existing ++ [(f, vIn)] := by
        simp [correlateField, hli, hle]
      rw [hred]
      simp [lookupIE, List.find?_append, Ne.symm h]
    · cases he : isEmptyValue vEx
      · have hred : correlateField existing incoming f = existing := by
          simp [correlateField, hli, hle, he]
        rw [hred]
      · have hred : correlateField existing incoming f = setIE existing f vIn := by
          simp [correlateField, hli, hle, he]
        rw [hred]
        exact lookupIE_setIE_ne existing f n vIn h

/-- The correlation merge touches only the configured correlation fields. -/
theorem lookupIE_correlateRecords_notMem (incoming : Rec) (n : String) :
    ∀ (fields : List String) (existing : Rec), n ∉ fields →
      lookupIE (correlateRecords fields existing incoming) n = lookupIE existing n
  | [], _, _ => rfl
  | f :: fs, existing, hn => by
    have hne : n ≠ f := fun hh => hn (by rw [hh]; exact List.mem_cons_self f fs)
    have hfs : n ∉ fs := fun hh => hn (List.mem_cons_of_mem f hh)
    rw [show correlateRecords (f :: fs) existing incoming =
        correlateRecords fs (correlateField existing incoming f) incoming from rfl]
    rw [lookupIE_correlateRecords_notMem incoming n fs
      (correlateField existing incoming f) hfs]
    exact lookupIE_correlateField_ne existing incoming f n hne

/-- C2: merging a subsequent record into an existing aggregated entry under
the test configuration yields, in the stored record, the maximum of existing
and latest for every element whose name contains "TotalCount", the sum for
every element whose name contains "DeltaCount", and the latest record's value
for every configured non-statistical element. -/
theorem statsAggregationMergeSpec (ap : AggregationProcess) (now : Nat) (k : FlowKey)
    (rl : Rec) (a : AggregationFlowRecord)
    (pt1 pd1 rpt1 rpd1 pt2 pd2 rpt2 rpd2 : Nat) (vEnd vReason vState : IEValue)
    (hagg : ap.aggregateElements = some testAggElements)
    (hcf : ap.correlateFields = testFields)
    (hvalid : hasValidFlowEnd rl = true)
    (hfind : lookupMap ap k = some a)
    (h1 : lookupIE a.record "packetTotalCount" = some (.vU64 pt1))
    (h2 : lookupIE a.record "packetDeltaCount" = some (.vU64 pd1))
    (h3 : lookupIE a.record "reversePacketTotalCount" = some (.vU64 rpt1))
    (h4 : lookupIE a.record "reversePacketDeltaCount" = some (.vU64 rpd1))
    (h5 : lookupIE rl "packetTotalCount" = some (.vU64 pt2))
    (h6 : lookupIE rl "packetDeltaCount" = some (.vU64 pd2))
    (h7 : lookupIE rl "reversePacketTotalCount" = some (.vU64 rpt2))
    (h8 : lookupIE rl "reversePacketDeltaCount" = some (.vU64 rpd2))
    (h9 : lookupIE rl "flowEndSeconds" = some vEnd)
    (h10 : lookupIE rl "flowEndReason" = some vReason)
    (h11 : lookupIE rl "tcpState" = some vState)
    (h12 : ∃ v, lookupIE a.record "flowEndSeconds" = some v)
    (h13 : ∃ v, lookupIE a.record "flowEndReason" = some v)
    (h14 : ∃ v, lookupIE a.record "tcpState" = some v) :
    ∃ ap', addOrUpdateRecordInMap ap now k rl = .ok ap' ∧
      ∃ a', lookupMap ap' k = some a' ∧
        lookupIE a'.record "packetTotalCount" = some (.vU64 (Nat.max pt1 pt2)) ∧
        lookupIE a'.record "packetDeltaCount" = some (.vU64 (pd1 + pd2)) ∧
        lookupIE a'.record "reversePacketTotalCount" = some (.vU64 (Nat.max rpt1 rpt2)) ∧
        lookupIE a'.record "reversePacketDeltaCount" = some (.vU64 (rpd1 + rpd2)) ∧
        lookupIE a'.record "flowEndSeconds" = some vEnd ∧
        lookupIE a'.record "flowEndReason" = some vReason ∧
        lookupIE a'.record "tcpState" = some vState := by
  obtain ⟨e, hf, he⟩ := Option.map_eq_some'.mp hfind
  refine ⟨{ ap with
      flowKeyRecordMap := ap.flowKeyRecordMap.map
        (fun e' => if e'.1 = k then (e'.1, mergedRecordOf ap e.2 rl) else e'),
      expirePriorityQueue := ap.expirePriorityQueue.map (fun it =>
        if it.flowKey = k then
          { it with flowRecord := mergedRecordOf ap e.2 rl,
                    inactiveExpireTime := now + ap.inactiveExpiryTimeout }
        else it) }, ?_, ?_⟩
  · simp [addOrUpdateRecordInMap, hvalid, hf]
  · refine ⟨mergedRecordOf ap e.2 rl, ?_, ?_⟩
    · simp only [lookupMap]
      rw [find?_map_update Prod.fst k (fun e' => (e'.1, mergedRecordOf ap e.2 rl))
        (fun _ => rfl) ap.flowKeyRecordMap, hf]
      rfl
    · subst he
      have t1 := lookupIE_correlateRecords_notMem rl "packetTotalCount" testFields
        e.2.record (by decide)
      have t2 := lookupIE_correlateRecords_notMem rl "packetDeltaCount" testFields
        e.2.record (by decide)
      have t3 := lookupIE_correlateRecords_notMem rl "reversePacketTotalCount" testFields
        e.2.record (by decide)
      have t4 := lookupIE_correlateRecords_notMem rl "reversePacketDeltaCount" testFields
        e.2.record (by decide)
      have t12 := lookupIE_correlateRecords_notMem rl "flowEndSeconds" testFields
        e.2.record (by decide)
      have t13 := lookupIE_correlateRecords_notMem rl "flowEndReason" testFields
        e.2.record (by decide)
      have t14 := lookupIE_correlateRecords_notMem rl "tcpState" testFields
        e.2.record (by decide)
      have main := aggregateStatsMergeSpec (correlateRecords testFields e.2.record rl) rl
        pt1 pd1 rpt1 rpd1 pt2 pd2 rpt2 rpd2 vEnd vReason vState
        (by rw [t1]; exact h1) (by rw [t2]; exact h2) (by rw [t3]; exact h3)
        (by rw [t4]; exact h4) h5 h6 h7 h8 h9 h10 h11
        (by rw [t12]; exact h12) (by rw [t13]; exact h13) (by rw [t14]; exact h14)
      simpa only [mergedRecordOf, hagg, hcf] using main

/-- C2 (witness): merging the destination half-record into the aggregation
process holding the source half gives packetTotalCount max(500,502),
packetDeltaCount 0+0, and the latest record's flowEndSeconds, flowEndReason
and tcpState. -/
theorem statsAggregationMergeSpecWitness :
    ∃ ap', addOrUpdateRecordInMap aggState1 1 flowKey1 dstRecIPv4 = .ok ap' ∧
      ∃ a', lookupMap ap' flowKey1 = some a' ∧
        lookupIE a'.record "packetTotalCount" = some (.vU64 (Nat.max 500 502)) ∧
        lookupIE a'.record "packetDeltaCount" = some (.vU64 (0 + 0)) ∧
        lookupIE a'.record "reversePacketTotalCount" = some (.vU64 (Nat.max 500 502)) ∧
        lookupIE a'.record "reversePacketDeltaCount" = some (.vU64 (0 + 0)) ∧
        lookupIE a'.record "flowEndSeconds" = some (.vU32 1) ∧
        lookupIE a'.record "flowEndReason" = some (.vU8 activeTimeoutReason) ∧
        lookupIE a'.record "tcpState" = some (.vStr "ESTABLISHED") :=
  statsAggregationMergeSpec aggState1 1 flowKey1 dstRecIPv4
    (insertedRecordOf testAggProcess srcRecIPv4) 500 0 500 0 502 0 502 0
    (.vU32 1) (.vU8 activeTimeoutReason) (.vStr "ESTABLISHED")
    (by decide) (by decide) (by decide) (by decide)
    (by decide) (by decide) (by decide) (by decide)
    (by decide) (by decide) (by decide) (by decide)
    (by decide) (by decide) (by decide)
    ⟨.vU32 1, by decide⟩ ⟨.vU8 2, by decide⟩ ⟨.vStr "ESTABLISHED", by decide⟩

/-- C6: a single InterNode record carrying a non-NoAction egress or ingress
network-policy rule action is inserted ReadyToSend immediately, and the stored
record is exactly the observed record — in particular the unresolved peer's
pod name stays as carried (the empty string). -/
theorem interNodeDenyReadySpec (ap : AggregationProcess) (now : Nat) (k : FlowKey) (r : Rec)
    (hnoAgg : ap.aggregateElements = none)
    (hvalid : hasValidFlowEnd r = true)
    (habsent : lookupMap ap k = none)
    (hInter : lookupIE r "flowType" = some (.vU8 flowTypeInterNode))
    (hdeny : isDenyRecord r = true) :
    ∃ ap', addOrUpdateRecordInMap ap now k r = .ok ap' ∧
      ∃ a, lookupMap ap' k = some a ∧ a.readyToSend = true ∧ a.record = r := by
  have hf : List.find? (fun e => e.1 = k) ap.flowKeyRecordMap = none := by
    simpa [lookupMap, Option.map_eq_none'] using habsent
  refine ⟨{ ap with
      flowKeyRecordMap := ap.flowKeyRecordMap ++ [(k, insertedRecordOf ap r)],
      expirePriorityQueue := ap.expirePriorityQueue ++
        [⟨k, insertedRecordOf ap r, now + ap.activeExpiryTimeout,
          now + ap.inactiveExpiryTimeout⟩] }, ?_, ?_⟩
  · simp [addOrUpdateRecordInMap, hvalid, hf]
  · refine ⟨insertedRecordOf ap r, ?_, ?_, ?_⟩
    · simp only [lookupMap]
      rw [List.find?_append, hf]
      simp
    · simp only [insertedRecordOf, hnoAgg]
      simp [isRecordReadyToSend, hInter, hdeny]
    · simp [insertedRecordOf, hnoAgg]

/-- C6 (witness): the source-side egress-Drop record and the destination-side
ingress-Reject record are each ReadyToSend right after insertion, with the
unresolved peer's pod name equal to the empty string. -/
theorem interNodeDenyReadySpecWitness :
    (∃ ap', addOrUpdateRecordInMap testProcess 0 flowKey1 srcRecEgressDeny = .ok ap' ∧
      ∃ a, lookupMap ap' flowKey1 = some a ∧ a.readyToSend = true ∧
        a.record = srcRecEgressDeny) ∧
    lookupIE srcRecEgressDeny "destinationPodName" = some (.vStr "") ∧
    (∃ ap', addOrUpdateRecordInMap testProcess 0 flowKey1 dstRecIngressReject = .ok ap' ∧
      ∃ a, lookupMap ap' flowKey1 = some a ∧ a.readyToSend = true ∧
        a.record = dstRecIngressReject) ∧
    lookupIE dstRecIngressReject "sourcePodName" = some (.vStr "") :=
  ⟨interNodeDenyReadySpec testProcess 0 flowKey1 srcRecEgressDeny rfl (by decide)
      (by decide) (by decide) (by decide),
   by decide,
   interNodeDenyReadySpec testProcess 0 flowKey1 dstRecIngressReject rfl (by decide)
      (by decide) (by decide) (by decide),
   by decide⟩

/-- C7 (witness): in the process holding only the IPv4 flow key, deleting the
IPv6 test key fails, and deleting the IPv4 key succeeds leaving the map
empty. -/
theorem deleteFlowKeyFromMapSpecWitness :
    (∃ e, deleteFlowKeyFromMap corrState1
        ⟨"2001:0:3238:dfe1:63::fefb", "2001:0:3238:dfe1:63::fefc", 6, 1234, 5678⟩ = .error e) ∧
    (∃ ap', deleteFlowKeyFromMap corrState1 flowKey1 = .ok ap' ∧
      lookupMap ap' flowKey1 = none ∧
      ap'.flowKeyRecordMap.length + 1 = corrState1.flowKeyRecordMap.length) := by
  constructor
  · exact (deleteFlowKeyFromMapSpec corrState1
      ⟨"2001:0:3238:dfe1:63::fefb", "2001:0:3238:dfe1:63::fefc", 6, 1234, 5678⟩
      (by decide)).1 (by decide)
  · obtain ⟨ap', h1, h2, h3, _⟩ := (deleteFlowKeyFromMapSpec corrState1 flowKey1
      (by decide)).2 ⟨srcRecIPv4, false, 0⟩ (by decide)
    exact ⟨ap', h1, h2, h3⟩

end GoIpfix
